import Mathlib

/-!
Shallow embedding of `api_send_email_notification.py` (the single source file of
the `cron-email-notification-scored-jobs` repository) in Lean 4, together with
theorems verifying the repository's natural-language specification against it.

Modelling conventions:
* The relational store is a `DB` value: lists of `Task`, `ScoredJob`, `Lead`
  and `OpsPerson` records.  Primary-key joins (`sj.id = t."scored_jobId"`,
  `l.id = t."leadId"`, `op.user_id = t."ops_personId"`) are modelled as
  first-match lookups, the standard unique-key relational reading.
* SQL `NULL`able columns are `Option` fields; `TIMESTAMPTZ` values are `Int`
  epoch seconds; `LOWER` is ASCII lowercasing (`lowerStr`).
* Python dictionaries with possibly-missing keys are modelled with an outer
  `Option` (`none` = key absent) around an inner `Option` (`none` = value is
  Python `None`), matching `dict.get(key, default)` semantics.
* Side effects (database connection lifecycle, outbound mail) are modelled as
  explicit event traces returned next to the computed value.
-/

namespace TaskReport

/-- ASCII lowercasing of a string, modelling SQL `LOWER(...)` applied to the
`status` column of `karmafy_task`. -/
def lowerStr (s : String) : String := String.mk (s.data.map Char.toLower)

/-- Lexicographic comparison on character lists, modelling the database's
default ascending string ordering used by `ORDER BY op.name`. -/
def charListLe : List Char → List Char → Bool
  | [], _ => true
  | _ :: _, [] => false
  | a :: as, b :: bs => if a = b then charListLe as bs else decide (a < b)

/-- Row of `karmafy_scoredjob` (the columns the query touches). -/
structure ScoredJob where
  id : Nat
  score : Int
deriving DecidableEq

/-- Row of `karmafy_lead` (the columns the query touches). -/
structure Lead where
  id : Nat
  apwId : Option String
  email : Option String
deriving DecidableEq

/-- Row of `public."karmafy_opsPerson"` (the columns the query touches). -/
structure OpsPerson where
  user_id : Nat
  name : Option String
  email : Option String
deriving DecidableEq

/-- Row of `karmafy_task` (the columns the query touches). -/
structure Task where
  createdAt : Int
  scored_jobId : Nat
  leadId : Nat
  ops_personId : Option Nat
  status : String
deriving DecidableEq

/-- The relational store contents visible to the aggregation query. -/
structure DB where
  tasks : List Task
  scoredJobs : List ScoredJob
  leads : List Lead
  ops : List OpsPerson
deriving DecidableEq

/-- Lower bound of the hardcoded reporting window:
`TIMESTAMPTZ '2025-12-23 00:00:00+00'` as epoch seconds. -/
def windowStart : Int := 1766448000

/-- Upper bound of the hardcoded reporting window:
`TIMESTAMPTZ '2025-12-24 00:00:00+00'` as epoch seconds. -/
def windowEnd : Int := 1766534400

/-- One row of the query's `FROM`/`JOIN` clause: a task joined to its scored
job and lead (inner joins) and optionally to an ops person (left join). -/
structure JoinedRow where
  t : Task
  sj : ScoredJob
  lead : Lead
  op : Option OpsPerson
deriving DecidableEq

/-- The join part of the query for a single task: inner joins on
`sj.id = t."scored_jobId"` and `l.id = t."leadId"` (the task is dropped when
either fails to match), left join on `op.user_id = t."ops_personId"`. -/
def joinTask (db : DB) (t : Task) : Option JoinedRow :=
  match db.scoredJobs.find? (fun sj => decide (sj.id = t.scored_jobId)),
        db.leads.find? (fun l => decide (l.id = t.leadId)) with
  | some sj, some l =>
      some { t := t, sj := sj, lead := l,
             op := t.ops_personId.bind
               (fun oid => db.ops.find? (fun o => decide (o.user_id = oid))) }
  | _, _ => none

/-- All joined rows of the query before the `WHERE` clause. -/
def joinedRows (db : DB) : List JoinedRow := db.tasks.filterMap (joinTask db)

/-- The `WHERE` clause: `t."createdAt" >= start AND t."createdAt" < end`. -/
def inWindow (t : Task) : Bool :=
  decide (windowStart ≤ t.createdAt) && decide (t.createdAt < windowEnd)

/-- Joined rows surviving the `WHERE` clause (window filter only; the score
threshold appears solely inside the `FILTER` clauses of the six counts). -/
def windowRows (db : DB) : List JoinedRow :=
  (joinedRows db).filter (fun r => inWindow r.t)

/-- The `GROUP BY l."apwId", l.email, op.name, op.email` key.  SQL `GROUP BY`
treats `NULL`s as equal, which `Option` equality matches. -/
structure GroupKey where
  apw_id : Option String
  lead_email : Option String
  ca_name : Option String
  ca_email : Option String
deriving DecidableEq

/-- Grouping key of a joined row (left-joined operator fields are `NULL` both
when no operator matched and when the matched operator's column is `NULL`). -/
def rowKey (r : JoinedRow) : GroupKey :=
  { apw_id := r.lead.apwId
    lead_email := r.lead.email
    ca_name := r.op.bind (fun o => o.name)
    ca_email := r.op.bind (fun o => o.email) }

/-- Membership of a joined row in the group of key `k`, conjoined with the
`FILTER (WHERE sj.score >= 75 ...)` score condition shared by all six counts. -/
def baseB (k : GroupKey) (r : JoinedRow) : Bool :=
  decide (rowKey r = k) && decide ((75 : Int) ≤ r.sj.score)

/-- One aggregate of the query:
`COUNT(*) FILTER (WHERE sj.score >= 75 AND LOWER(t.status) = st)` evaluated
over the rows of group `k`. -/
def countFor (rows : List JoinedRow) (k : GroupKey) (st : String) : Nat :=
  rows.countP (fun r => baseB k r && decide (lowerStr r.t.status = st))

/-- One row of the query's result set, i.e. one element of the list of dicts
returned by `get_task_status_summary` (all ten keys always present). -/
structure SummaryRow where
  apw_id : Option String
  lead_email : Option String
  ca_name : Option String
  ca_email : Option String
  completed_75_plus : Nat
  pending_75_plus : Nat
  in_progress_75_plus : Nat
  not_relevant_75_plus : Nat
  job_not_found_75_plus : Nat
  already_applied_75_plus : Nat
deriving DecidableEq

/-- The output row produced for group `k` from the window-filtered rows. -/
def summaryRowFor (rows : List JoinedRow) (k : GroupKey) : SummaryRow :=
  { apw_id := k.apw_id
    lead_email := k.lead_email
    ca_name := k.ca_name
    ca_email := k.ca_email
    completed_75_plus := countFor rows k "completed"
    pending_75_plus := countFor rows k "pending"
    in_progress_75_plus := countFor rows k "in_progress"
    not_relevant_75_plus := countFor rows k "not_relevant"
    job_not_found_75_plus := countFor rows k "job_not_found"
    already_applied_75_plus := countFor rows k "already_applied" }

/-- The distinct grouping keys observed among the window-filtered rows. -/
def groupKeys (db : DB) : List GroupKey :=
  ((windowRows db).map rowKey).dedup

/-- Ascending `ORDER BY op.name` comparison (database-default `NULLS LAST`). -/
def optNameLe (a b : Option String) : Bool :=
  match a, b with
  | none, none => true
  | none, some _ => false
  | some _, none => true
  | some x, some y => charListLe x.data y.data

/-- Ordering relation on output rows induced by `ORDER BY op.name`. -/
def rowLe (a b : SummaryRow) : Prop := optNameLe a.ca_name b.ca_name = true

instance : DecidableRel rowLe := fun a b => by
  unfold rowLe
  infer_instance

/-- The function `get_task_status_summary` of the source: run the grouped
aggregation query over the store and return its rows as a list of records. -/
def get_task_status_summary (db : DB) : List SummaryRow :=
  List.insertionSort rowLe ((groupKeys db).map (summaryRowFor (windowRows db)))

/-- Key fields of an output row (recovering the group it reports on). -/
def rowKeyOf (r : SummaryRow) : GroupKey :=
  { apw_id := r.apw_id
    lead_email := r.lead_email
    ca_name := r.ca_name
    ca_email := r.ca_email }

/-- Sum of the six status counts of an output row. -/
def sumCounts (r : SummaryRow) : Nat :=
  r.completed_75_plus + r.pending_75_plus + r.in_progress_75_plus +
    r.not_relevant_75_plus + r.job_not_found_75_plus + r.already_applied_75_plus

/-! ## Email template (`build_task_status_email_template`) -/

/-- A Python dict as consumed by the template: an outer `none` means the key
is absent, an inner `none` means the key maps to Python `None`. -/
structure TaskDict where
  apw_id : Option (Option String)
  lead_email : Option (Option String)
  ca_name : Option (Option String)
  ca_email : Option (Option String)
  completed_75_plus : Option Nat
  pending_75_plus : Option Nat
  in_progress_75_plus : Option Nat
  not_relevant_75_plus : Option Nat
  job_not_found_75_plus : Option Nat
  already_applied_75_plus : Option Nat
deriving DecidableEq

/-- Python `task.get(key, dflt)` for a string-valued key: the default when the
key is absent, otherwise the stored value (possibly `None`). -/
def pyGet (v : Option (Option String)) (dflt : String) : Option String :=
  match v with
  | none => some dflt
  | some x => x

/-- Python `value or 'N/A'`: `None` and the empty string are falsy. -/
def pyOrNA (v : Option String) : String :=
  match v with
  | none => "N/A"
  | some s => if s = "" then "N/A" else s

/-- Python `str()` as applied by f-string interpolation to a value that is
either a string or `None`. -/
def pyStr (v : Option String) : String :=
  match v with
  | none => "None"
  | some s => s

/-- Python `task.get(key, 0)` for a count-valued key. -/
def pyGetNat (v : Option Nat) : Nat := v.getD 0

/-- A summary row viewed as the Python dict handed to the template: every key
present, text columns possibly `None`. -/
def SummaryRow.toDict (r : SummaryRow) : TaskDict :=
  { apw_id := some r.apw_id
    lead_email := some r.lead_email
    ca_name := some r.ca_name
    ca_email := some r.ca_email
    completed_75_plus := some r.completed_75_plus
    pending_75_plus := some r.pending_75_plus
    in_progress_75_plus := some r.in_progress_75_plus
    not_relevant_75_plus := some r.not_relevant_75_plus
    job_not_found_75_plus := some r.job_not_found_75_plus
    already_applied_75_plus := some r.already_applied_75_plus }

/-- Literal segments of the per-row f-string of the template (the text
between consecutive interpolation placeholders), extracted verbatim. -/
def rowSeg0 : String :=
  "\n        <tr style=\"border-bottom: 1px solid #e5e7eb;\">\n            <td style=\"padding: 10px 8px; text-align: center; color: #6b7280; font-weight: 600; font-size: 13px;\">"

def rowSeg1 : String :=
  "</td>\n            <td style=\"padding: 10px 8px; text-align: center; color: #111827; font-weight: 600; font-size: 13px;\">"

def rowSeg2 : String :=
  "</td>\n            <td style=\"padding: 10px 8px; color: #4b5563; font-family: ui-monospace, monospace; font-size: 12px;\">"

def rowSeg3 : String :=
  "</td>\n            <td style=\"padding: 10px 8px; color: #111827; font-weight: 600; font-size: 13px;\">"

def rowSeg4 : String :=
  "</td>\n            <td style=\"padding: 10px 8px; color: #6b7280; font-family: ui-monospace, monospace; font-size: 12px;\">"

def rowSeg5 : String :=
  "</td>\n            <td style=\"padding: 10px 8px; text-align: center; font-weight: 700; color: #059669; font-size: 13px;\">"

def rowSeg6 : String :=
  "</td>\n            <td style=\"padding: 10px 8px; text-align: center; font-weight: 700; color: #f59e0b; font-size: 13px;\">"

def rowSeg7 : String :=
  "</td>\n            <td style=\"padding: 10px 8px; text-align: center; font-weight: 700; color: #3b82f6; font-size: 13px;\">"

def rowSeg8 : String :=
  "</td>\n            <td style=\"padding: 10px 8px; text-align: center; font-weight: 700; color: #6b7280; font-size: 13px;\">"

def rowSeg9 : String :=
  "</td>\n            <td style=\"padding: 10px 8px; text-align: center; font-weight: 700; color: #dc2626; font-size: 13px;\">"

def rowSeg10 : String :=
  "</td>\n            <td style=\"padding: 10px 8px; text-align: center; font-weight: 700; color: #8b5cf6; font-size: 13px;\">"

def rowSeg11 : String :=
  "</td>\n            <td style=\"padding: 10px 8px; text-align: center; font-weight: 700; color: #111827; font-size: 13px; background-color: #f3f4f6;\">"

def rowSeg12 : String :=
  "</td>\n        </tr>\n        "

/-- Literal segments of the document-level f-string of the template (the text
between consecutive interpolation placeholders), extracted verbatim; Python
brace escapes are already resolved to the literal braces the source emits. -/
def tplSeg0 : String :=
  "<!DOCTYPE html>\n<html lang=\"en\">\n<head>\n  <meta charSet=\"UTF-8\" />\n  <title>"

def tplSeg1 : String :=
  " ‚Äì Daily Task Status Report (Score ‚â• 75)</title>\n  <meta name=\"viewport\" content=\"width=device-width, initial-scale=1\" />\n  <style>\n    body \x7b\n      margin: 0;\n      padding: 0;\n      background-color: #f3f4f6;\n      font-family: system-ui, -apple-system, BlinkMacSystemFont, \"Segoe UI\", sans-serif;\n      color: #111827;\n    \x7d\n    .container \x7b\n      max-width: 1400px;\n      margin: 32px auto;\n      background: #ffffff;\n      border-radius: 16px;\n      overflow: hidden;\n      box-shadow: 0 18px 45px rgba(15, 23, 42, 0.12);\n    \x7d\n    .header \x7b\n      background: linear-gradient(135deg, #3b82f6, #8b5cf6);\n      padding: 24px 32px;\n      color: white;\n      text-align: left;\n    \x7d\n    .title \x7b\n      background-color: #3b82f6;\n      margin-top: 10px;\n      font-size: 24px;\n      font-weight: 700;\n      color: white;\n    \x7d\n    .sub \x7b\n      background-color: #3b82f6;\n      margin-top: 6px;\n      font-size: 14px;\n      opacity: 0.9;\n      color: white;\n    \x7d\n    .body \x7b\n      padding: 24px 32px 32px;\n      font-size: 14px;\n      line-height: 1.6;\n    \x7d\n    .info-box \x7b\n      background-color: #eff6ff;\n      border-left: 4px solid #3b82f6;\n      padding: 16px;\n      margin: 20px 0;\n      border-radius: 8px;\n    \x7d\n    .table-wrapper \x7b\n      overflow-x: auto;\n      margin: 20px 0;\n    \x7d\n    table \x7b\n      width: 100%;\n      min-width: 1300px;\n      border-collapse: collapse;\n      background: white;\n      border: 1px solid #e5e7eb;\n      border-radius: 8px;\n      overflow: hidden;\n    \x7d\n    th \x7b\n      background: #f9fafb;\n      padding: 10px 8px;\n      text-align: left;\n      font-weight: 700;\n      font-size: 11px;\n      text-transform: uppercase;\n      letter-spacing: 0.03em;\n      color: #6b7280;\n      border-bottom: 2px solid #e5e7eb;\n      white-space: nowrap;\n    \x7d\n    td \x7b\n      padding: 10px 8px;\n      font-size: 13px;\n      border-bottom: 1px solid #f3f4f6;\n    \x7d\n    th:nth-child(1), th:nth-child(2), th:nth-child(6), th:nth-child(7), th:nth-child(8), \n    th:nth-child(9), th:nth-child(10), th:nth-child(11), th:nth-child(12) \x7b\n      text-align: center;\n    \x7d\n    .footer \x7b\n      padding: 16px 32px 24px;\n      font-size: 11px;\n      color: #9ca3af;\n      text-align: center;\n    \x7d\n    .cta-button \x7b\n      display: inline-block;\n      margin-top: 18px;\n      padding: 12px 24px;\n      background: linear-gradient(135deg, #3b82f6, #8b5cf6);\n      color: white !important;\n      text-decoration: none;\n      border-radius: 999px;\n      font-weight: 600;\n      font-size: 14px;\n    \x7d\n    .legend \x7b\n      display: flex;\n      flex-wrap: wrap;\n      gap: 16px;\n      margin: 20px 0;\n      padding: 16px;\n      background: #f9fafb;\n      border-radius: 8px;\n    \x7d\n    .legend-item \x7b\n      display: flex;\n      align-items: center;\n      gap: 8px;\n      font-size: 12px;\n    \x7d\n    .legend-color \x7b\n      width: 16px;\n      height: 16px;\n      border-radius: 4px;\n    \x7d\n  </style>\n</head>\n<body>\n  <div class=\"container\">\n    <div class=\"header\">\n      <div class=\"title\">üìä Daily Task Status Report (Score ‚â• 75)</div>\n      <div class=\"sub\">\n        Task status breakdown for "

def tplSeg2 : String :=
  " lead-CA combination(s) - "

def tplSeg3 : String :=
  "\n      </div>\n    </div>\n    <div class=\"body\">\n      <p>Hi Team,</p>\n      <p>\n        This is your daily task status report showing the breakdown of all tasks created today with a score of <strong>75 or higher</strong>, grouped by lead and assigned CA (Customer Advocate).\n      </p>\n\n      <div class=\"info-box\">\n        <strong>‚ÑπÔ∏è Report Details:</strong> This report includes only tasks with scores ‚â• 75 created on "

def tplSeg4 : String :=
  " (UTC).\n      </div>\n\n      <div class=\"legend\">\n        <div class=\"legend-item\">\n          <div class=\"legend-color\" style=\"background-color: #059669;\"></div>\n          <span><strong>Completed:</strong> Tasks successfully completed</span>\n        </div>\n        <div class=\"legend-item\">\n          <div class=\"legend-color\" style=\"background-color: #f59e0b;\"></div>\n          <span><strong>Pending:</strong> Tasks awaiting action</span>\n        </div>\n        <div class=\"legend-item\">\n          <div class=\"legend-color\" style=\"background-color: #3b82f6;\"></div>\n          <span><strong>In Progress:</strong> Tasks currently being worked on</span>\n        </div>\n        <div class=\"legend-item\">\n          <div class=\"legend-color\" style=\"background-color: #6b7280;\"></div>\n          <span><strong>Not Relevant:</strong> Tasks marked as not relevant</span>\n        </div>\n        <div class=\"legend-item\">\n          <div class=\"legend-color\" style=\"background-color: #dc2626;\"></div>\n          <span><strong>Job Not Found:</strong> Tasks where job posting was not found</span>\n        </div>\n        <div class=\"legend-item\">\n          <div class=\"legend-color\" style=\"background-color: #8b5cf6;\"></div>\n          <span><strong>Already Applied:</strong> Jobs already applied to</span>\n        </div>\n      </div>\n\n      <h3 style=\"color: #111827; margin-top: 24px;\">Task Status Breakdown by Lead & CA</h3>\n      \n      <div class=\"table-wrapper\">\n        <table>\n          <thead>\n            <tr>\n              <th>#</th>\n              <th>APW ID</th>\n              <th>Lead Email</th>\n              <th>CA Name</th>\n              <th>CA Email</th>\n              <th style=\"background-color: #ecfdf5;\">Completed</th>\n              <th style=\"background-color: #fffbeb;\">Pending</th>\n              <th style=\"background-color: #eff6ff;\">In Progress</th>\n              <th style=\"background-color: #f9fafb;\">Not Relevant</th>\n              <th style=\"background-color: #fef2f2;\">Job Not Found</th>\n              <th style=\"background-color: #f5f3ff;\">Already Applied</th>\n              <th style=\"background-color: #f3f4f6;\">Total</th>\n            </tr>\n          </thead>\n          <tbody>\n            "

def tplSeg5 : String :=
  "\n          </tbody>\n        </table>\n      </div>\n\n      <p style=\"margin-top: 24px; color: #6b7280; font-size: 13px;\">\n        <strong>Key Insights:</strong>\n      </p>\n      <ul style=\"color: #6b7280; font-size: 13px;\">\n        <li>Review leads with high \"Not Relevant\" or \"Job Not Found\" counts</li>\n        <li>Monitor \"Pending\" tasks to ensure timely completion</li>\n        <li>Check \"Already Applied\" tasks to avoid duplicate applications</li>\n        <li>Celebrate leads with high \"Completed\" task counts</li>\n      </ul>\n\n      <a href=\""

def tplSeg6 : String :=
  "\" class=\"cta-button\" target=\"_blank\" rel=\"noopener noreferrer\">\n        View Dashboard\n      </a>\n\n      <p style=\"margin-top: 24px; color: #9ca3af; font-size: 12px;\">\n        This is an automated notification from "

def tplSeg7 : String :=
  ". Generated on "

def tplSeg8 : String :=
  ".\n      </p>\n    </div>\n    <div class=\"footer\">\n      ¬© "

def tplSeg9 : String :=
  " "

def tplSeg10 : String :=
  ". All rights reserved.\n    </div>\n  </div>\n</body>\n</html>\n"

/-- One table row of the report, mirroring the body of the
`for idx, task in enumerate(tasks_data, 1)` loop of
`build_task_status_email_template`. -/
def taskRowHtml (idx : Nat) (task : TaskDict) : String :=
  let apw_id := pyOrNA (pyGet task.apw_id "N/A")
  let lead_email := pyStr (pyGet task.lead_email "N/A")
  let ca_name := pyOrNA (pyGet task.ca_name "N/A")
  let ca_email := pyOrNA (pyGet task.ca_email "N/A")
  let completed := pyGetNat task.completed_75_plus
  let pending := pyGetNat task.pending_75_plus
  let in_progress := pyGetNat task.in_progress_75_plus
  let not_relevant := pyGetNat task.not_relevant_75_plus
  let job_not_found := pyGetNat task.job_not_found_75_plus
  let already_applied := pyGetNat task.already_applied_75_plus
  let total_tasks := completed + pending + in_progress + not_relevant +
    job_not_found + already_applied
  rowSeg0 ++ toString idx ++ rowSeg1 ++ apw_id ++ rowSeg2 ++ lead_email ++
    rowSeg3 ++ ca_name ++ rowSeg4 ++ ca_email ++ rowSeg5 ++
    toString completed ++ rowSeg6 ++ toString pending ++ rowSeg7 ++
    toString in_progress ++ rowSeg8 ++ toString not_relevant ++ rowSeg9 ++
    toString job_not_found ++ rowSeg10 ++ toString already_applied ++
    rowSeg11 ++ toString total_tasks ++ rowSeg12

/-- The `task_rows` accumulator after the whole loop, starting the enumeration
at `idx`. -/
def taskRowsGo : Nat → List TaskDict → String
  | _, [] => ""
  | idx, task :: rest => taskRowHtml idx task ++ taskRowsGo (idx + 1) rest

/-- The `task_rows` string of `build_task_status_email_template`
(`enumerate(tasks_data, 1)`). -/
def taskRowsHtml (tasks_data : List TaskDict) : String := taskRowsGo 1 tasks_data

/-- The function `build_task_status_email_template` of the source.  The four
`datetime.utcnow()` reads are abstracted into the parameters `today`
(`%Y-%m-%d`, read twice), `nowStamp` (`%Y-%m-%d %H:%M UTC`) and `yearNum`
(`.year`). -/
def build_task_status_email_template (app_name : String)
    (tasks_data : List TaskDict)
    (support_url : String := "https://dashboard.apply-wizz.com/")
    (today : String := "") (nowStamp : String := "") (yearNum : Nat := 0) :
    String :=
  let task_rows := taskRowsHtml tasks_data
  tplSeg0 ++ app_name ++ tplSeg1 ++ toString tasks_data.length ++ tplSeg2 ++
    today ++ tplSeg3 ++ today ++ tplSeg4 ++ task_rows ++ tplSeg5 ++
    support_url ++ tplSeg6 ++ app_name ++ tplSeg7 ++ nowStamp ++ tplSeg8 ++
    toString yearNum ++ tplSeg9 ++ app_name ++ tplSeg10

/-! ## Module-level configuration (lines 22-53 of the source) -/

/-- The validated module-level configuration values. -/
structure Config where
  tenant_id : String
  client_id : String
  client_secret : String
  sender_email : String
  cc_email_recipients : List String
  database_url : String
deriving DecidableEq

/-- Python truthiness of an `os.getenv` result: `None` and `""` are falsy. -/
def pyTruthy (v : Option String) : Bool :=
  match v with
  | none => false
  | some s => !(decide (s = ""))

/-- Message of the `ValueError` raised when an Azure credential is missing. -/
def azureCredErrMsg : String :=
  "Missing required Azure AD credentials. Please set the following environment variables:\n  - AZURE_TENANT_ID\n  - AZURE_CLIENT_ID\n  - AZURE_CLIENT_SECRET"

/-- Message of the `ValueError` raised when `DATABASE_URL` is missing. -/
def dbUrlErrMsg : String :=
  "Missing required DATABASE_URL environment variable. Please set it in your .env file."

/-- The module-level configuration loading and validation of the source, as a
function of the process environment: reads the Azure credentials, raises
(`Except.error`) if any is falsy, then reads `DATABASE_URL`, raises if falsy,
and otherwise yields the `Config` all later code runs under.  No network or
store call occurs here; the report endpoint takes the resulting `Config`, so
an `Except.error` outcome means the report path is unreachable. -/
def initConfig (env : String → Option String) : Except String Config :=
  let tenant := env "AZURE_TENANT_ID"
  let client := env "AZURE_CLIENT_ID"
  let secret := env "AZURE_CLIENT_SECRET"
  let sender := (env "SENDER_EMAIL").getD "support@applywizz.com"
  if pyTruthy tenant && (pyTruthy client && pyTruthy secret) then
    let dbUrl := env "DATABASE_URL"
    if pyTruthy dbUrl then
      let ccStr := (env "CC_EMAIL_RECIPIENTS").getD ""
      Except.ok
        { tenant_id := tenant.getD ""
          client_id := client.getD ""
          client_secret := secret.getD ""
          sender_email := sender
          cc_email_recipients :=
            ((ccStr.splitOn ",").map String.trim).filter
              (fun e => !(decide (e = "")))
          database_url := dbUrl.getD "" }
    else Except.error dbUrlErrMsg
  else Except.error azureCredErrMsg

/-- `APP_NAME` constant of the source. -/
def APP_NAME : String := "Task Management"

/-- `TEST_EMAIL_RECIPIENT` constant of the source. -/
def TEST_EMAIL_RECIPIENT : String := "bhanutejathouti@gmail.com"

/-! ## Orchestrator (`send_task_status_report`) -/

/-- A JSON value appearing in the endpoint response. -/
inductive RespVal where
  | b (v : Bool)
  | s (v : String)
  | n (v : Nat)
  | rows (v : List SummaryRow)
deriving DecidableEq

/-- One invocation of `send_mail_via_graph`, recorded by its arguments
(`toAddr` is the `to` parameter; `to` is a reserved word in Lean). -/
structure MailMsg where
  toAddr : String
  subject : String
  html : String
  cc : List String
deriving DecidableEq

/-- Outcome of a normal run of the endpoint: the returned JSON object (an
ordered key-value list) and the trace of mail-dispatch invocations. -/
structure RunResult where
  response : List (String × RespVal)
  mailsSent : List MailMsg
deriving DecidableEq

/-- The endpoint `send_task_status_report` of the source on its normal-return
paths: query the summary; when empty, return the four-field "no tasks" object
without dispatching mail; otherwise build the subject and HTML, dispatch one
mail to `TEST_EMAIL_RECIPIENT` with the configured CC list, and return the
six-field object. -/
def send_task_status_report (cfg : Config) (db : DB) (today nowStamp : String)
    (yearNum : Nat) : RunResult :=
  let task_summary := get_task_status_summary db
  if task_summary.isEmpty then
    { response := [("success", RespVal.b true),
                   ("message", RespVal.s "No tasks found for today with score >= 75"),
                   ("task_count", RespVal.n 0),
                   ("email_sent", RespVal.b false)]
      mailsSent := [] }
  else
    let subject := APP_NAME ++ " - Daily Task Status Report (Score ‚â• 75) - " ++ today
    let html := build_task_status_email_template APP_NAME
      (task_summary.map SummaryRow.toDict) "https://dashboard.apply-wizz.com/"
      today nowStamp yearNum
    { response := [("success", RespVal.b true),
                   ("message", RespVal.s ("Daily task status report sent for " ++
                     toString task_summary.length ++ " lead-CA combination(s)")),
                   ("task_combinations_count", RespVal.n task_summary.length),
                   ("tasks_data", RespVal.rows task_summary),
                   ("email_sent", RespVal.b true),
                   ("email_sent_to", RespVal.s TEST_EMAIL_RECIPIENT)]
      mailsSent := [{ toAddr := TEST_EMAIL_RECIPIENT, subject := subject,
                      html := html, cc := cfg.cc_email_recipients }] }

/-! ## Store-connection lifecycle of `get_task_status_summary` -/

/-- Events on the store connection. -/
inductive DbEvent where
  | opened
  | queried
  | closed
deriving DecidableEq

/-- Python `try/finally`: the events of the finally block run after the body's
events whether the body succeeded or raised. -/
def pyTryFinally {a : Type} (body : List DbEvent × Except String a)
    (fin : List DbEvent) : List DbEvent × Except String a :=
  (body.1 ++ fin, body.2)

/-- The single `cursor.execute`/`fetchall` of `get_task_status_summary`; a
`psycopg2.Error` is caught and re-raised as an HTTP 500. -/
def runQuery (db : DB) (queryOk : Bool) :
    List DbEvent × Except String (List SummaryRow) :=
  if queryOk then ([DbEvent.queried], Except.ok (get_task_status_summary db))
  else ([DbEvent.queried], Except.error "Database query failed")

/-- Connection lifecycle of `get_task_status_summary`: `get_db_connection`
(which raises before any connection exists when connecting fails), then the
query wrapped in `try ... finally: conn.close()`. -/
def get_task_status_summary_run (db : DB) (connectOk queryOk : Bool) :
    List DbEvent × Except String (List SummaryRow) :=
  if connectOk then
    let r := pyTryFinally (runQuery db queryOk) [DbEvent.closed]
    (DbEvent.opened :: r.1, r.2)
  else ([], Except.error "Database connection failed")

/-! ## Spec-side comparison definitions

These definitions follow the specification's words (not the code); the claim
theorems compare the code-side aggregation against them. -/

/-- Spec-side: the spec's "eligible Tasks" — joined rows in the window whose
score meets the threshold. -/
def eligibleRows (db : DB) : List JoinedRow :=
  (windowRows db).filter (fun r => decide ((75 : Int) ≤ r.sj.score))

/-- Spec-side: the claim's "total Tasks for that (lead, operator) pair whose
score is ≥ 75 and whose creation timestamp lies in the reporting window". -/
def eligibleCountFor (db : DB) (k : GroupKey) : Nat :=
  (eligibleRows db).countP (fun r => decide (rowKey r = k))

/-- Whether a joined row's lowercased status is one of the six values the
query's `FILTER` clauses recognize. -/
def statusRecognized (r : JoinedRow) : Bool :=
  decide (lowerStr r.t.status = "completed") ||
    (decide (lowerStr r.t.status = "pending") ||
      (decide (lowerStr r.t.status = "in_progress") ||
        (decide (lowerStr r.t.status = "not_relevant") ||
          (decide (lowerStr r.t.status = "job_not_found") ||
            decide (lowerStr r.t.status = "already_applied")))))

/-- Eligible tasks of the group of `k` whose status is recognized — the
corrected reading of the per-row total. -/
def recognizedEligibleCountFor (db : DB) (k : GroupKey) : Nat :=
  (eligibleRows db).countP (fun r => decide (rowKey r = k) && statusRecognized r)

/-- Total of all six counters over all output rows: the number of task
occurrences counted anywhere in the aggregation's output. -/
def grandTotal (db : DB) : Nat :=
  ((get_task_status_summary db).map sumCounts).sum

/-! ## Concrete store contents used by counterexamples and witnesses -/

/-- A scored job at exactly the threshold. -/
def sjAt75 : ScoredJob := { id := 1, score := 75 }

/-- A scored job one below the threshold. -/
def sjAt74 : ScoredJob := { id := 1, score := 74 }

/-- A lead with both columns populated. -/
def leadA : Lead := { id := 1, apwId := some "APW-1", email := some "lead1@example.com" }

/-- An ops person with both columns populated. -/
def opA : OpsPerson := { user_id := 1, name := some "Jane Doe", email := some "jane@example.com" }

/-- A task created at `ts` referring to scored job 1, lead 1 and operator 1. -/
def mkTask (ts : Int) (st : String) : Task :=
  { createdAt := ts, scored_jobId := 1, leadId := 1, ops_personId := some 1, status := st }

/-- Store with one in-window, score-75 task whose status is unrecognized. -/
def dbWeirdStatus : DB := { tasks := [mkTask windowStart "weird"], scoredJobs := [sjAt75], leads := [leadA], ops := [opA] }

/-- Store with one in-window, recognized-status task whose score is 74. -/
def dbLowScore : DB := { tasks := [mkTask windowStart "completed"], scoredJobs := [sjAt74], leads := [leadA], ops := [opA] }

/-- Store with one task created exactly at the window start, score exactly 75,
status `"Completed"` (mixed case). -/
def dbCompleted : DB := { tasks := [mkTask windowStart "Completed"], scoredJobs := [sjAt75], leads := [leadA], ops := [opA] }

/-- Store with one task created exactly at the window end. -/
def dbAtEnd : DB := { tasks := [mkTask windowEnd "completed"], scoredJobs := [sjAt75], leads := [leadA], ops := [opA] }

/-- An empty store. -/
def dbEmpty : DB := { tasks := [], scoredJobs := [], leads := [], ops := [] }

/-- The grouping key of `leadA`/`opA` rows. -/
def kJane : GroupKey :=
  { apw_id := some "APW-1", lead_email := some "lead1@example.com",
    ca_name := some "Jane Doe", ca_email := some "jane@example.com" }

/-- A fully-populated configuration for concrete orchestrator runs. -/
def cfgEx : Config :=
  { tenant_id := "tenant", client_id := "client", client_secret := "secret",
    sender_email := "support@applywizz.com", cc_email_recipients := [],
    database_url := "postgresql://localhost/karmafy" }

/-- The spec's rendering-fidelity example row: lead `APW-1`, operator
`Jane Doe`, counts `[3,1,0,0,0,0]`. -/
def dictExample : TaskDict :=
  { apw_id := some (some "APW-1"), lead_email := some (some "lead1@example.com"),
    ca_name := some (some "Jane Doe"), ca_email := some (some "jane@example.com"),
    completed_75_plus := some 3, pending_75_plus := some 1,
    in_progress_75_plus := some 0, not_relevant_75_plus := some 0,
    job_not_found_75_plus := some 0, already_applied_75_plus := some 0 }

/-- A template row dict whose four text columns are all Python `None`. -/
def dictNulls : TaskDict :=
  { apw_id := some none, lead_email := some none,
    ca_name := some none, ca_email := some none,
    completed_75_plus := some 1, pending_75_plus := some 0,
    in_progress_75_plus := some 0, not_relevant_75_plus := some 0,
    job_not_found_75_plus := some 0, already_applied_75_plus := some 0 }

/-! ## Helper lemmas -/

/-- Counting a disjunction of disjoint Boolean predicates splits into a sum. -/
theorem countP_or_of_disjoint {α : Type} (p q : α → Bool)
    (h : ∀ a, p a = true → q a = false) (l : List α) :
    l.countP (fun a => p a || q a) = l.countP p + l.countP q := by
  induction l with
  | nil => rfl
  | cons a l ih =>
    simp only [List.countP_cons, ih]
    by_cases hp : p a = true
    · have hq := h a hp
      simp [hp, hq]
      omega
    · simp only [Bool.not_eq_true] at hp
      cases hq : q a <;> simp [hp, hq] <;> omega

/-- Variant of `countP_or_of_disjoint` under a shared conjunct. -/
theorem countP_base_or {α : Type} (b p q : α → Bool)
    (h : ∀ a, p a = true → q a = false) (l : List α) :
    l.countP (fun a => b a && (p a || q a)) =
      l.countP (fun a => b a && p a) + l.countP (fun a => b a && q a) := by
  rw [← countP_or_of_disjoint (fun a => b a && p a) (fun a => b a && q a)
    (fun a ha => by
      rcases Bool.and_eq_true .. |>.mp ha with ⟨hb, hp⟩
      simp [h a hp])]
  apply List.countP_congr
  intro a _
  cases b a <;> cases p a <;> cases q a <;> simp

/-- Summing the per-key counts over a duplicate-free list of keys covering
every element recovers the plain count. -/
theorem countP_partition {α κ : Type} [DecidableEq κ] (key : α → κ) (p : α → Bool) :
    ∀ ks : List κ, ks.Nodup → ∀ l : List α, (∀ a ∈ l, key a ∈ ks) →
      (ks.map (fun k => l.countP (fun a => decide (key a = k) && p a))).sum =
        l.countP p := by
  intro ks
  induction ks with
  | nil =>
    intro _ l hl
    have hnil : l = [] :=
      List.eq_nil_iff_forall_not_mem.mpr
        (fun a ha => absurd (hl a ha) (List.not_mem_nil _))
    subst hnil
    rfl
  | cons k ks ih =>
    intro hnd l hl
    have hknotin : k ∉ ks := (List.nodup_cons.mp hnd).1
    have hndks : ks.Nodup := (List.nodup_cons.mp hnd).2
    simp only [List.map_cons, List.sum_cons]
    have htail : ∀ k2 ∈ ks,
        l.countP (fun a => decide (key a = k2) && p a) =
          (l.filter (fun a => !decide (key a = k))).countP
            (fun a => decide (key a = k2) && p a) := by
      intro k2 hk2
      rw [List.countP_filter]
      apply List.countP_congr
      intro a _
      constructor
      · intro hT
        rcases Bool.and_eq_true .. |>.mp hT with ⟨h1, h2⟩
        have hak2 : key a = k2 := of_decide_eq_true h1
        have hne : ¬ key a = k := fun hc => hknotin ((hak2.symm.trans hc) ▸ hk2)
        have hne2 : ¬ k2 = k := fun hc => hknotin (hc ▸ hk2)
        simp [hak2, h2, hne, hne2]
      · intro hT
        exact (Bool.and_eq_true .. |>.mp hT).1
    have hmap : ks.map (fun k2 => l.countP (fun a => decide (key a = k2) && p a)) =
        ks.map (fun k2 => (l.filter (fun a => !decide (key a = k))).countP
          (fun a => decide (key a = k2) && p a)) := by
      apply List.map_congr_left
      intro k2 hk2
      exact htail k2 hk2
    rw [hmap, ih hndks (l.filter (fun a => !decide (key a = k)))
      (fun a ha => by
        rcases List.mem_filter.mp ha with ⟨hal, hbk⟩
        rcases List.mem_cons.mp (hl a hal) with hcase | hcase
        · exfalso
          simp only [Bool.not_eq_true', decide_eq_false_iff_not] at hbk
          exact hbk hcase
        · exact hcase)]
    rw [List.countP_filter]
    have hsplit : l.countP p =
        l.countP (fun a => decide (key a = k) && p a) +
          l.countP (fun a => p a && !decide (key a = k)) := by
      rw [← countP_or_of_disjoint (fun a => decide (key a = k) && p a)
        (fun a => p a && !decide (key a = k))
        (fun a ha => by
          rcases Bool.and_eq_true .. |>.mp ha with ⟨h1, _⟩
          simp [of_decide_eq_true h1])]
      apply List.countP_congr
      intro a _
      cases hk' : decide (key a = k) <;> cases hp : p a <;> simp [hk', hp]
    omega

/-- Membership in the aggregation output: exactly the rows built from the
distinct observed group keys. -/
theorem mem_summary_iff {db : DB} {r : SummaryRow} :
    r ∈ get_task_status_summary db ↔
      ∃ k ∈ groupKeys db, summaryRowFor (windowRows db) k = r := by
  unfold get_task_status_summary
  rw [(List.perm_insertionSort rowLe _).mem_iff]
  exact List.mem_map

/-- The key fields of a built row recover its group key. -/
theorem rowKeyOf_summaryRowFor (rows : List JoinedRow) (k : GroupKey) :
    rowKeyOf (summaryRowFor rows k) = k := rfl

/-- The six counters of an output row sum to the count of group rows passing
the score threshold with a recognized status. -/
theorem sumCounts_summaryRowFor (rows : List JoinedRow) (k : GroupKey) :
    sumCounts (summaryRowFor rows k) =
      rows.countP (fun r => baseB k r && statusRecognized r) := by
  have d1 : ∀ r : JoinedRow, decide (lowerStr r.t.status = "completed") = true →
      (decide (lowerStr r.t.status = "pending") ||
        (decide (lowerStr r.t.status = "in_progress") ||
          (decide (lowerStr r.t.status = "not_relevant") ||
            (decide (lowerStr r.t.status = "job_not_found") ||
              decide (lowerStr r.t.status = "already_applied"))))) = false := by
    intro r h
    rw [of_decide_eq_true h]
    decide
  have d2 : ∀ r : JoinedRow, decide (lowerStr r.t.status = "pending") = true →
      (decide (lowerStr r.t.status = "in_progress") ||
        (decide (lowerStr r.t.status = "not_relevant") ||
          (decide (lowerStr r.t.status = "job_not_found") ||
            decide (lowerStr r.t.status = "already_applied")))) = false := by
    intro r h
    rw [of_decide_eq_true h]
    decide
  have d3 : ∀ r : JoinedRow, decide (lowerStr r.t.status = "in_progress") = true →
      (decide (lowerStr r.t.status = "not_relevant") ||
        (decide (lowerStr r.t.status = "job_not_found") ||
          decide (lowerStr r.t.status = "already_applied"))) = false := by
    intro r h
    rw [of_decide_eq_true h]
    decide
  have d4 : ∀ r : JoinedRow, decide (lowerStr r.t.status = "not_relevant") = true →
      (decide (lowerStr r.t.status = "job_not_found") ||
        decide (lowerStr r.t.status = "already_applied")) = false := by
    intro r h
    rw [of_decide_eq_true h]
    decide
  have d5 : ∀ r : JoinedRow, decide (lowerStr r.t.status = "job_not_found") = true →
      decide (lowerStr r.t.status = "already_applied") = false := by
    intro r h
    rw [of_decide_eq_true h]
    decide
  have e1 := countP_base_or (baseB k)
    (fun r : JoinedRow => decide (lowerStr r.t.status = "completed"))
    (fun r : JoinedRow => decide (lowerStr r.t.status = "pending") ||
      (decide (lowerStr r.t.status = "in_progress") ||
        (decide (lowerStr r.t.status = "not_relevant") ||
          (decide (lowerStr r.t.status = "job_not_found") ||
            decide (lowerStr r.t.status = "already_applied"))))) d1 rows
  have e2 := countP_base_or (baseB k)
    (fun r : JoinedRow => decide (lowerStr r.t.status = "pending"))
    (fun r : JoinedRow => decide (lowerStr r.t.status = "in_progress") ||
      (decide (lowerStr r.t.status = "not_relevant") ||
        (decide (lowerStr r.t.status = "job_not_found") ||
          decide (lowerStr r.t.status = "already_applied")))) d2 rows
  have e3 := countP_base_or (baseB k)
    (fun r : JoinedRow => decide (lowerStr r.t.status = "in_progress"))
    (fun r : JoinedRow => decide (lowerStr r.t.status = "not_relevant") ||
      (decide (lowerStr r.t.status = "job_not_found") ||
        decide (lowerStr r.t.status = "already_applied"))) d3 rows
  have e4 := countP_base_or (baseB k)
    (fun r : JoinedRow => decide (lowerStr r.t.status = "not_relevant"))
    (fun r : JoinedRow => decide (lowerStr r.t.status = "job_not_found") ||
      decide (lowerStr r.t.status = "already_applied")) d4 rows
  have e5 := countP_base_or (baseB k)
    (fun r : JoinedRow => decide (lowerStr r.t.status = "job_not_found"))
    (fun r : JoinedRow => decide (lowerStr r.t.status = "already_applied")) d5 rows
  simp only [sumCounts, summaryRowFor, countFor, statusRecognized]
  rw [e1, e2, e3, e4, e5]
  omega

/-! ## Claim C1 -/

/-- C1 (amended): every output row's six status counts sum to the number of
eligible tasks of its (lead, operator) group whose status is one of the six
recognized values — not to the group's full eligible-task count. -/
theorem c1_theorem : ∀ db : DB, ∀ r ∈ get_task_status_summary db,
    sumCounts r = recognizedEligibleCountFor db (rowKeyOf r) := by
  intro db r hr
  rcases mem_summary_iff.mp hr with ⟨k, _, hrow⟩
  subst hrow
  rw [rowKeyOf_summaryRowFor, sumCounts_summaryRowFor]
  unfold recognizedEligibleCountFor eligibleRows
  rw [List.countP_filter]
  apply List.countP_congr
  intro a _
  unfold baseB
  cases h1 : decide (rowKey a = k) <;>
    cases h2 : decide ((75 : Int) ≤ a.sj.score) <;>
      cases h3 : statusRecognized a <;> simp [h1, h2, h3]

/-- C1 witness: at `dbCompleted` the (only) output row satisfies the theorem,
with its membership hypothesis discharged by evaluation. -/
theorem c1_witness :
    summaryRowFor (windowRows dbCompleted) kJane ∈ get_task_status_summary dbCompleted ∧
      sumCounts (summaryRowFor (windowRows dbCompleted) kJane) =
        recognizedEligibleCountFor dbCompleted
          (rowKeyOf (summaryRowFor (windowRows dbCompleted) kJane)) :=
  ⟨by decide, c1_theorem dbCompleted _ (by decide)⟩

/-- C1 counterexample: at `dbWeirdStatus` (one in-window, score-75 task with
unrecognized status `"weird"`) the output row's counts sum to 0 while the
group has 1 eligible task, so the claim as stated is false. -/
theorem c1_counterexample :
    ¬ (∀ db : DB, ∀ r ∈ get_task_status_summary db,
        sumCounts r = eligibleCountFor db (rowKeyOf r)) := by
  intro h
  exact absurd (h dbWeirdStatus) (by decide)

/-! ## Claim C2 -/

/-- C2 (amended): the aggregation emits exactly one row per distinct grouping
key observed among the tasks created in the window that join to a scored job
and lead — regardless of score, so a pair whose only in-window tasks score
below 75 still gets a (zero-count) row. -/
theorem c2_theorem : ∀ db : DB,
    ((get_task_status_summary db).map rowKeyOf).Nodup ∧
      ∀ k : GroupKey, k ∈ (get_task_status_summary db).map rowKeyOf ↔
        ∃ r ∈ windowRows db, rowKey r = k := by
  intro db
  have hperm : (get_task_status_summary db).Perm
      ((groupKeys db).map (summaryRowFor (windowRows db))) :=
    List.perm_insertionSort rowLe _
  have hmap : (((groupKeys db).map (summaryRowFor (windowRows db))).map rowKeyOf) =
      groupKeys db := by
    rw [List.map_map]
    have hcomp : (rowKeyOf ∘ summaryRowFor (windowRows db)) = id :=
      funext fun k => rowKeyOf_summaryRowFor _ k
    rw [hcomp, List.map_id]
  constructor
  · rw [(hperm.map rowKeyOf).nodup_iff, hmap]
    exact List.nodup_dedup _
  · intro k
    rw [(hperm.map rowKeyOf).mem_iff, hmap]
    unfold groupKeys
    rw [List.mem_dedup]
    exact List.mem_map

/-- C2 counterexample: at `dbLowScore` (one in-window task, score 74) the
output contains a row for the pair although the pair has no eligible task, so
the claim as stated is false. -/
theorem c2_counterexample :
    ¬ (∀ db : DB,
        ((get_task_status_summary db).map rowKeyOf).Nodup ∧
          ∀ k : GroupKey, k ∈ (get_task_status_summary db).map rowKeyOf ↔
            ∃ r ∈ eligibleRows db, rowKey r = k) := by
  intro h
  have h2 := (h dbLowScore).2 kJane
  have h3 : kJane ∈ (get_task_status_summary dbLowScore).map rowKeyOf := by decide
  rcases h2.mp h3 with ⟨r, hr, _⟩
  have hnil : eligibleRows dbLowScore = [] := by decide
  rw [hnil] at hr
  exact absurd hr (List.not_mem_nil r)

/-! ## Claim C3 -/

/-- C3 (amended): a task occurrence is counted in some status counter iff its
creation time is in the half-open window, its score is ≥ 75, AND its
lowercased status is one of the six recognized values; the window boundaries
(start included at `dbCompleted`, end excluded at `dbAtEnd`) and the score
boundary (75 included at `dbCompleted`, 74 excluded at `dbLowScore`) behave
as claimed, but an unrecognized status (`dbWeirdStatus`) is counted nowhere. -/
theorem c3_theorem :
    (∀ db : DB, grandTotal db =
        (joinedRows db).countP
          (fun r => (inWindow r.t && decide ((75 : Int) ≤ r.sj.score)) &&
            statusRecognized r)) ∧
      grandTotal dbCompleted = 1 ∧ grandTotal dbAtEnd = 0 ∧
        grandTotal dbLowScore = 0 ∧ grandTotal dbWeirdStatus = 0 := by
  refine ⟨?_, by decide, by decide, by decide, by decide⟩
  intro db
  unfold grandTotal
  have hperm : (get_task_status_summary db).Perm
      ((groupKeys db).map (summaryRowFor (windowRows db))) :=
    List.perm_insertionSort rowLe _
  rw [(hperm.map sumCounts).sum_eq, List.map_map]
  have hrw : (sumCounts ∘ summaryRowFor (windowRows db)) =
      fun k => (windowRows db).countP
        (fun r => decide (rowKey r = k) &&
          (decide ((75 : Int) ≤ r.sj.score) && statusRecognized r)) := by
    funext k
    simp only [Function.comp_apply]
    rw [sumCounts_summaryRowFor]
    apply List.countP_congr
    intro a _
    unfold baseB
    rw [Bool.and_assoc]
  rw [hrw]
  rw [countP_partition rowKey
    (fun r : JoinedRow => decide ((75 : Int) ≤ r.sj.score) && statusRecognized r)
    (groupKeys db) (List.nodup_dedup _) (windowRows db)
    (fun r hr => by
      unfold groupKeys
      rw [List.mem_dedup]
      exact List.mem_map_of_mem _ hr)]
  unfold windowRows
  rw [List.countP_filter]
  apply List.countP_congr
  intro a _
  cases h1 : inWindow a.t <;>
    cases h2 : decide ((75 : Int) ≤ a.sj.score) <;>
      cases h3 : statusRecognized a <;> simp [h1, h2, h3]

/-- C3 counterexample: without the recognized-status condition the claimed
equivalence fails — at `dbWeirdStatus` one joined task is in the window with
score ≥ 75, yet the aggregation counts it nowhere. -/
theorem c3_counterexample :
    ¬ (∀ db : DB, grandTotal db =
        (joinedRows db).countP
          (fun r => inWindow r.t && decide ((75 : Int) ≤ r.sj.score))) := by
  intro h
  exact absurd (h dbWeirdStatus) (by decide)

/-! ## Claim C4 -/

/-- C4 (amended): on a non-empty aggregation result the response carries all
six documented fields with the documented types and values; on an empty
result the response instead has exactly the four fields `success`, `message`,
`task_count` and `email_sent` (no `task_combinations_count`, `tasks_data` or
`email_sent_to`). -/
theorem c4_theorem : ∀ (cfg : Config) (db : DB) (today nowStamp : String)
    (yearNum : Nat),
    (get_task_status_summary db ≠ [] →
      (send_task_status_report cfg db today nowStamp yearNum).response.lookup "success" =
          some (RespVal.b true) ∧
        (send_task_status_report cfg db today nowStamp yearNum).response.lookup "message" =
          some (RespVal.s ("Daily task status report sent for " ++
            toString (get_task_status_summary db).length ++ " lead-CA combination(s)")) ∧
        (send_task_status_report cfg db today nowStamp yearNum).response.lookup "task_combinations_count" =
          some (RespVal.n (get_task_status_summary db).length) ∧
        (send_task_status_report cfg db today nowStamp yearNum).response.lookup "tasks_data" =
          some (RespVal.rows (get_task_status_summary db)) ∧
        (send_task_status_report cfg db today nowStamp yearNum).response.lookup "email_sent" =
          some (RespVal.b true) ∧
        (send_task_status_report cfg db today nowStamp yearNum).response.lookup "email_sent_to" =
          some (RespVal.s TEST_EMAIL_RECIPIENT)) ∧
      (get_task_status_summary db = [] →
        (send_task_status_report cfg db today nowStamp yearNum).response =
          [("success", RespVal.b true),
           ("message", RespVal.s "No tasks found for today with score >= 75"),
           ("task_count", RespVal.n 0),
           ("email_sent", RespVal.b false)]) := by
  intro cfg db today nowStamp yearNum
  constructor
  · intro hne
    cases hsum : get_task_status_summary db with
    | nil => exact absurd hsum hne
    | cons r rs =>
      refine ⟨?_, ?_, ?_, ?_, ?_, ?_⟩ <;>
        (simp only [send_task_status_report]; rw [hsum]; rfl)
  · intro hsum
    simp only [send_task_status_report]
    rw [hsum]
    rfl

/-- C4 witness: concrete runs discharging both hypotheses of the theorem —
a non-empty run at `dbCompleted` carrying `email_sent_to`, and the empty run
at `dbEmpty` returning the four-field object. -/
theorem c4_witness :
    (get_task_status_summary dbCompleted ≠ [] ∧
      (send_task_status_report cfgEx dbCompleted "2025-12-23" "2025-12-23 00:05 UTC" 2025).response.lookup "email_sent_to" =
        some (RespVal.s TEST_EMAIL_RECIPIENT)) ∧
      (get_task_status_summary dbEmpty = [] ∧
        (send_task_status_report cfgEx dbEmpty "2025-12-23" "2025-12-23 00:05 UTC" 2025).response =
          [("success", RespVal.b true),
           ("message", RespVal.s "No tasks found for today with score >= 75"),
           ("task_count", RespVal.n 0),
           ("email_sent", RespVal.b false)]) :=
  ⟨⟨by decide,
    ((c4_theorem cfgEx dbCompleted "2025-12-23" "2025-12-23 00:05 UTC" 2025).1
      (by decide)).2.2.2.2.2⟩,
   ⟨rfl,
    (c4_theorem cfgEx dbEmpty "2025-12-23" "2025-12-23 00:05 UTC" 2025).2 rfl⟩⟩

/-- C4 counterexample: the claim as stated — every normal return, the empty
run included, carries all six fields — is false: the empty run's response has
no `task_combinations_count`, `tasks_data` or `email_sent_to` key. -/
theorem c4_counterexample :
    ¬ (∀ (cfg : Config) (db : DB) (today nowStamp : String) (yearNum : Nat),
        ((send_task_status_report cfg db today nowStamp yearNum).response.lookup "success").isSome ∧
          ((send_task_status_report cfg db today nowStamp yearNum).response.lookup "message").isSome ∧
          ((send_task_status_report cfg db today nowStamp yearNum).response.lookup "task_combinations_count").isSome ∧
          ((send_task_status_report cfg db today nowStamp yearNum).response.lookup "tasks_data").isSome ∧
          ((send_task_status_report cfg db today nowStamp yearNum).response.lookup "email_sent").isSome ∧
          ((send_task_status_report cfg db today nowStamp yearNum).response.lookup "email_sent_to").isSome) := by
  intro h
  exact absurd (h cfgEx dbEmpty "" "" 0) (by decide)

/-! ## Claim C5 -/

/-- C5: when the aggregation returns the empty sequence the orchestrator
reports `email_sent: false` and the mail-dispatch path (`send_mail_via_graph`,
and with it the token acquisition) is never invoked. -/
theorem c5_theorem : ∀ (cfg : Config) (db : DB) (today nowStamp : String)
    (yearNum : Nat), get_task_status_summary db = [] →
    (send_task_status_report cfg db today nowStamp yearNum).mailsSent = [] ∧
      (send_task_status_report cfg db today nowStamp yearNum).response.lookup "email_sent" =
        some (RespVal.b false) := by
  intro cfg db today nowStamp yearNum hsum
  constructor <;> (simp only [send_task_status_report]; rw [hsum]; rfl)

/-- C5 witness: the empty store yields an empty aggregation, no dispatched
mail and `email_sent: false`. -/
theorem c5_witness :
    get_task_status_summary dbEmpty = [] ∧
      (send_task_status_report cfgEx dbEmpty "" "" 0).mailsSent = [] ∧
        (send_task_status_report cfgEx dbEmpty "" "" 0).response.lookup "email_sent" =
          some (RespVal.b false) :=
  ⟨rfl, c5_theorem cfgEx dbEmpty "" "" 0 rfl⟩

/-! ## Claim C6 -/

/-- The accumulated rows string splits around the row rendered for the `i`-th
input dict (enumeration starting at `n`). -/
theorem taskRowsGo_split : ∀ (l : List TaskDict) (i n : Nat) (t : TaskDict),
    l.get? i = some t →
    ∃ a b, taskRowsGo n l = a ++ (taskRowHtml (n + i) t ++ b) := by
  intro l
  induction l with
  | nil =>
    intro i n t h
    simp at h
  | cons x xs ih =>
    intro i n t h
    cases i with
    | zero =>
      have hx : x = t := by simpa using h
      subst hx
      refine ⟨"", taskRowsGo (n + 1) xs, ?_⟩
      rw [Nat.add_zero, String.empty_append]
      rfl
    | succ j =>
      have h2 : xs.get? j = some t := by simpa using h
      rcases ih j (n + 1) t h2 with ⟨a, b, hab⟩
      refine ⟨taskRowHtml n x ++ a, b, ?_⟩
      have hgo : taskRowsGo n (x :: xs) = taskRowHtml n x ++ taskRowsGo (n + 1) xs := rfl
      rw [hgo, hab]
      have hn : n + 1 + j = n + (j + 1) := by omega
      rw [hn, String.append_assoc]

/-- C6: the rendered document contains one table row per input row (here: the
row for the `i`-th input, numbered `i + 1`), and that row displays the six
input counts verbatim followed by a total equal to the sum of exactly those
six counts — computed from the row alone, with no re-aggregation. -/
theorem c6_theorem : ∀ (app_name support_url today nowStamp : String)
    (yearNum : Nat) (tasks_data : List TaskDict) (i : Nat) (t : TaskDict),
    tasks_data.get? i = some t →
    (∃ a b, build_task_status_email_template app_name tasks_data support_url
        today nowStamp yearNum = a ++ (taskRowHtml (i + 1) t ++ b)) ∧
      (∃ c, taskRowHtml (i + 1) t =
        c ++ (toString (pyGetNat t.completed_75_plus) ++ (rowSeg6 ++
          (toString (pyGetNat t.pending_75_plus) ++ (rowSeg7 ++
            (toString (pyGetNat t.in_progress_75_plus) ++ (rowSeg8 ++
              (toString (pyGetNat t.not_relevant_75_plus) ++ (rowSeg9 ++
                (toString (pyGetNat t.job_not_found_75_plus) ++ (rowSeg10 ++
                  (toString (pyGetNat t.already_applied_75_plus) ++ (rowSeg11 ++
                    (toString (pyGetNat t.completed_75_plus +
                        pyGetNat t.pending_75_plus +
                        pyGetNat t.in_progress_75_plus +
                        pyGetNat t.not_relevant_75_plus +
                        pyGetNat t.job_not_found_75_plus +
                        pyGetNat t.already_applied_75_plus) ++
                      rowSeg12)))))))))))))) := by
  intro app_name support_url today nowStamp yearNum tasks_data i t h
  constructor
  · rcases taskRowsGo_split tasks_data i 1 t h with ⟨a, b, hab⟩
    have h1 : (1 : Nat) + i = i + 1 := by omega
    rw [h1] at hab
    refine ⟨tplSeg0 ++ app_name ++ tplSeg1 ++ toString tasks_data.length ++
      tplSeg2 ++ today ++ tplSeg3 ++ today ++ tplSeg4 ++ a,
      b ++ tplSeg5 ++ support_url ++ tplSeg6 ++ app_name ++ tplSeg7 ++
        nowStamp ++ tplSeg8 ++ toString yearNum ++ tplSeg9 ++ app_name ++
        tplSeg10, ?_⟩
    simp only [build_task_status_email_template, taskRowsHtml]
    rw [hab]
    simp only [String.append_assoc]
  · refine ⟨rowSeg0 ++ toString (i + 1) ++ rowSeg1 ++
      pyOrNA (pyGet t.apw_id "N/A") ++ rowSeg2 ++
      pyStr (pyGet t.lead_email "N/A") ++ rowSeg3 ++
      pyOrNA (pyGet t.ca_name "N/A") ++ rowSeg4 ++
      pyOrNA (pyGet t.ca_email "N/A") ++ rowSeg5, ?_⟩
    simp only [taskRowHtml]
    simp only [String.append_assoc]

/-- C6 witness: the spec's example row (counts `[3,1,0,0,0,0]`) at index 0 of
a one-row input satisfies the theorem; in particular the document splits
around its rendered row. -/
theorem c6_witness :
    ([dictExample].get? 0 = some dictExample) ∧
      ∃ a b, build_task_status_email_template "Task Management" [dictExample]
          "https://dashboard.apply-wizz.com/" "2025-12-23"
          "2025-12-23 00:05 UTC" 2025 = a ++ (taskRowHtml 1 dictExample ++ b) :=
  ⟨rfl,
    ( c6_theorem "Task Management" "https://dashboard.apply-wizz.com/"
      "2025-12-23" "2025-12-23 00:05 UTC" 2025 [dictExample] 0 dictExample
      rfl).1⟩

/-! ## Claim C7 -/

/-- Joining a task whose status was rewritten only rewrites the status inside
the resulting row: the join conditions never read the status column. -/
theorem joinTask_mapStatus (db : DB) (f : Task → String) (t : Task) :
    joinTask db { t with status := f t } =
      (joinTask db t).map
        (fun r => { r with t := { r.t with status := f r.t } }) := by
  have e1 : ({ t with status := f t } : Task).scored_jobId = t.scored_jobId := rfl
  have e2 : ({ t with status := f t } : Task).leadId = t.leadId := rfl
  have e3 : ({ t with status := f t } : Task).ops_personId = t.ops_personId := rfl
  unfold joinTask
  rw [e1, e2, e3]
  rcases h1 : db.scoredJobs.find? (fun sj => decide (sj.id = t.scored_jobId)) with _ | sj <;>
    rcases h2 : db.leads.find? (fun l => decide (l.id = t.leadId)) with _ | l <;>
      rw [h1, h2] <;> rfl

/-- The joined rows of the status-rewritten store are the status-rewritten
joined rows of the original store. -/
theorem joinedRows_mapStatus (db : DB) (f : Task → String) :
    joinedRows { db with tasks := db.tasks.map (fun t => { t with status := f t }) } =
      (joinedRows db).map
        (fun r => { r with t := { r.t with status := f r.t } }) := by
  unfold joinedRows
  have hdb : joinTask { db with tasks := db.tasks.map (fun t => { t with status := f t }) } =
      joinTask db := rfl
  rw [hdb, List.filterMap_map, List.map_filterMap]
  apply List.filterMap_congr
  intro t _
  simp only [Function.comp_apply]
  exact joinTask_mapStatus db f t

/-- The window filter never reads the status column either. -/
theorem windowRows_mapStatus (db : DB) (f : Task → String) :
    windowRows { db with tasks := db.tasks.map (fun t => { t with status := f t }) } =
      (windowRows db).map
        (fun r => { r with t := { r.t with status := f r.t } }) := by
  unfold windowRows
  rw [joinedRows_mapStatus, List.filter_map]
  have hcomp : ((fun r : JoinedRow => inWindow r.t) ∘
      fun r : JoinedRow => { r with t := { r.t with status := f r.t } }) =
      fun r : JoinedRow => inWindow r.t := by
    funext r
    rfl
  rw [hcomp]

/-- A joined row's task is one of the store's tasks. -/
theorem mem_joinedRows_task {db : DB} {r : JoinedRow}
    (hr : r ∈ joinedRows db) : r.t ∈ db.tasks := by
  unfold joinedRows at hr
  rcases List.mem_filterMap.mp hr with ⟨t, ht, hjoin⟩
  unfold joinTask at hjoin
  rcases h1 : db.scoredJobs.find? (fun sj => decide (sj.id = t.scored_jobId)) with _ | sj <;>
    rcases h2 : db.leads.find? (fun l => decide (l.id = t.leadId)) with _ | l <;>
      rw [h1, h2] at hjoin
  · exact Option.noConfusion hjoin
  · exact Option.noConfusion hjoin
  · exact Option.noConfusion hjoin
  · have hrt : (⟨t, sj, l,
        t.ops_personId.bind
          (fun oid => db.ops.find? (fun o => decide (o.user_id = oid)))⟩ : JoinedRow) = r := by
      injection hjoin
    rw [← hrt]
    exact ht

/-- A window row's task is one of the store's tasks. -/
theorem mem_windowRows_task {db : DB} {r : JoinedRow}
    (hr : r ∈ windowRows db) : r.t ∈ db.tasks :=
  mem_joinedRows_task (List.mem_filter.mp hr).1

/-- Rewriting statuses without changing their lowercase form leaves every
`FILTER` count unchanged. -/
theorem countFor_mapStatus (db : DB) (f : Task → String)
    (h : ∀ t ∈ db.tasks, lowerStr (f t) = lowerStr t.status)
    (k : GroupKey) (st : String) :
    countFor ((windowRows db).map
        (fun r => { r with t := { r.t with status := f r.t } })) k st =
      countFor (windowRows db) k st := by
  unfold countFor
  rw [List.countP_map]
  apply List.countP_congr
  intro r hr
  simp only [Function.comp_apply]
  have hb : baseB k ({ r with t := { r.t with status := f r.t } } : JoinedRow) =
      baseB k r := rfl
  have hst : lowerStr ({ r with t := { r.t with status := f r.t } } : JoinedRow).t.status =
      lowerStr r.t.status := by
    show lowerStr (f r.t) = lowerStr r.t.status
    exact h r.t (mem_windowRows_task hr)
  rw [hb, hst]

/-- C7: the aggregation output is invariant under rewriting task statuses to
any casing with the same lowercase form — every casing of a recognized status
increments the same counter. -/
theorem c7_theorem (db : DB) (f : Task → String)
    (h : ∀ t ∈ db.tasks, lowerStr (f t) = lowerStr t.status) :
    get_task_status_summary
        { db with tasks := db.tasks.map (fun t => { t with status := f t }) } =
      get_task_status_summary db := by
  unfold get_task_status_summary
  have hw := windowRows_mapStatus db f
  have hkeys : groupKeys
      { db with tasks := db.tasks.map (fun t => { t with status := f t }) } =
      groupKeys db := by
    unfold groupKeys
    rw [hw, List.map_map]
    have hcomp : (rowKey ∘
        fun r : JoinedRow => { r with t := { r.t with status := f r.t } }) = rowKey := by
      funext r
      rfl
    rw [hcomp]
  rw [hkeys]
  have hrowfor : summaryRowFor
      (windowRows { db with tasks := db.tasks.map (fun t => { t with status := f t }) }) =
      summaryRowFor (windowRows db) := by
    funext k
    unfold summaryRowFor
    rw [hw]
    simp only [countFor_mapStatus db f h]
  rw [hrowfor]

/-- C7 witness: recasing the `"Completed"` task of `dbCompleted` to
`"COMPLETED"` satisfies the lowercase-preservation hypothesis and leaves the
aggregation output unchanged. -/
theorem c7_witness :
    (∀ t ∈ dbCompleted.tasks,
        lowerStr ((fun _ => "COMPLETED") t) = lowerStr t.status) ∧
      get_task_status_summary
          { dbCompleted with
            tasks := dbCompleted.tasks.map
                       (fun t => { t with status := (fun _ => "COMPLETED") t }) } =
        get_task_status_summary dbCompleted :=
  ⟨by decide, c7_theorem dbCompleted (fun _ => "COMPLETED") (by decide)⟩

/-! ## Claim C8 -/

/-- C8: with any required configuration value absent from the environment,
module initialization raises the configuration `ValueError` (an `Except.error`
here), so no `Config` exists and the report path — which needs one — is never
reached; no network or store call occurs during initialization (it is a pure
read of the environment). -/
theorem c8_theorem : ∀ env : String → Option String,
    (env "AZURE_TENANT_ID" = none ∨ env "AZURE_CLIENT_ID" = none ∨
      env "AZURE_CLIENT_SECRET" = none ∨ env "DATABASE_URL" = none) →
    (initConfig env).isOk = false := by
  intro env h
  rcases h with h | h | h | h
  · simp [initConfig, h, pyTruthy, Except.isOk, Except.toBool]
  · simp [initConfig, h, pyTruthy, Except.isOk, Except.toBool]
  · simp [initConfig, h, pyTruthy, Except.isOk, Except.toBool]
  · simp only [initConfig, h]
    cases hT : pyTruthy (env "AZURE_TENANT_ID") <;>
      cases hC : pyTruthy (env "AZURE_CLIENT_ID") <;>
        cases hS : pyTruthy (env "AZURE_CLIENT_SECRET") <;>
          simp [hT, hC, hS, pyTruthy, Except.isOk, Except.toBool]

/-- C8 witness: the empty environment is missing the tenant id (among
others), and initialization indeed fails. -/
theorem c8_witness :
    ((fun _ => none : String → Option String) "AZURE_TENANT_ID" = none ∨
      (fun _ => none : String → Option String) "AZURE_CLIENT_ID" = none ∨
      (fun _ => none : String → Option String) "AZURE_CLIENT_SECRET" = none ∨
      (fun _ => none : String → Option String) "DATABASE_URL" = none) ∧
      (initConfig (fun _ => none)).isOk = false :=
  ⟨Or.inl rfl, c8_theorem (fun _ => none) (Or.inl rfl)⟩

/-! ## Claim C9 -/

/-- C9: whenever the connection is acquired (`connectOk = true`), the run's
event trace is exactly open–query–close on both the normal and the
query-failure path: the connection serves exactly one query and is closed
last, before control returns. -/
theorem c9_theorem : ∀ (db : DB) (queryOk : Bool),
    (get_task_status_summary_run db true queryOk).1 =
        [DbEvent.opened, DbEvent.queried, DbEvent.closed] ∧
      (get_task_status_summary_run db true queryOk).1.count DbEvent.queried = 1 ∧
      (get_task_status_summary_run db true queryOk).1.count DbEvent.closed = 1 ∧
      (get_task_status_summary_run db true queryOk).1.getLast? = some DbEvent.closed := by
  intro db queryOk
  cases queryOk <;> exact ⟨rfl, rfl, rfl, rfl⟩

/-! ## Claim C10 -/

/-- C10: a row whose lead external id, operator name or operator email is
null (Python `None`) or missing renders the literal `N/A` in that cell, and
the rendered row contains it; a null lead email undergoes no such
substitution — it renders as Python's `str(None)`, the string `None`. -/
theorem c10_theorem : ∀ (idx : Nat) (t : TaskDict),
    ((t.apw_id = none ∨ t.apw_id = some none) →
      pyOrNA (pyGet t.apw_id "N/A") = "N/A") ∧
      ((t.ca_name = none ∨ t.ca_name = some none) →
        pyOrNA (pyGet t.ca_name "N/A") = "N/A") ∧
      ((t.ca_email = none ∨ t.ca_email = some none) →
        pyOrNA (pyGet t.ca_email "N/A") = "N/A") ∧
      ((t.apw_id = none ∨ t.apw_id = some none) →
        ∃ a b, taskRowHtml idx t = a ++ ("N/A" ++ b)) ∧
      (t.lead_email = some none →
        pyStr (pyGet t.lead_email "N/A") = "None" ∧
          ∃ c d, taskRowHtml idx t = c ++ ("None" ++ d)) := by
  intro idx t
  refine ⟨?_, ?_, ?_, ?_, ?_⟩
  · rintro (h | h) <;> rw [h] <;> rfl
  · rintro (h | h) <;> rw [h] <;> rfl
  · rintro (h | h) <;> rw [h] <;> rfl
  · rintro (h | h) <;>
      (refine ⟨rowSeg0 ++ toString idx ++ rowSeg1,
        rowSeg2 ++ pyStr (pyGet t.lead_email "N/A") ++ rowSeg3 ++
          pyOrNA (pyGet t.ca_name "N/A") ++ rowSeg4 ++
          pyOrNA (pyGet t.ca_email "N/A") ++ rowSeg5 ++
          toString (pyGetNat t.completed_75_plus) ++ rowSeg6 ++
          toString (pyGetNat t.pending_75_plus) ++ rowSeg7 ++
          toString (pyGetNat t.in_progress_75_plus) ++ rowSeg8 ++
          toString (pyGetNat t.not_relevant_75_plus) ++ rowSeg9 ++
          toString (pyGetNat t.job_not_found_75_plus) ++ rowSeg10 ++
          toString (pyGetNat t.already_applied_75_plus) ++ rowSeg11 ++
          toString (pyGetNat t.completed_75_plus + pyGetNat t.pending_75_plus +
            pyGetNat t.in_progress_75_plus + pyGetNat t.not_relevant_75_plus +
            pyGetNat t.job_not_found_75_plus + pyGetNat t.already_applied_75_plus) ++
          rowSeg12, ?_⟩
       have hcell : pyOrNA (pyGet t.apw_id "N/A") = "N/A" := by
         rw [h]
         rfl
       simp only [taskRowHtml, hcell]
       simp only [String.append_assoc])
  · intro h
    refine ⟨by rw [h]; rfl, ?_⟩
    refine ⟨rowSeg0 ++ toString idx ++ rowSeg1 ++ pyOrNA (pyGet t.apw_id "N/A") ++ rowSeg2,
      rowSeg3 ++ pyOrNA (pyGet t.ca_name "N/A") ++ rowSeg4 ++
        pyOrNA (pyGet t.ca_email "N/A") ++ rowSeg5 ++
        toString (pyGetNat t.completed_75_plus) ++ rowSeg6 ++
        toString (pyGetNat t.pending_75_plus) ++ rowSeg7 ++
        toString (pyGetNat t.in_progress_75_plus) ++ rowSeg8 ++
        toString (pyGetNat t.not_relevant_75_plus) ++ rowSeg9 ++
        toString (pyGetNat t.job_not_found_75_plus) ++ rowSeg10 ++
        toString (pyGetNat t.already_applied_75_plus) ++ rowSeg11 ++
        toString (pyGetNat t.completed_75_plus + pyGetNat t.pending_75_plus +
          pyGetNat t.in_progress_75_plus + pyGetNat t.not_relevant_75_plus +
          pyGetNat t.job_not_found_75_plus + pyGetNat t.already_applied_75_plus) ++
        rowSeg12, ?_⟩
    have hcell : pyStr (pyGet t.lead_email "N/A") = "None" := by
      rw [h]
      rfl
    simp only [taskRowHtml, hcell]
    simp only [String.append_assoc]

/-- C10 witness: the all-null dict renders `N/A` for the lead id and the
string `None` for the lead email. -/
theorem c10_witness :
    (dictNulls.apw_id = none ∨ dictNulls.apw_id = some none) ∧
      pyOrNA (pyGet dictNulls.apw_id "N/A") = "N/A" ∧
      dictNulls.lead_email = some none ∧
      pyStr (pyGet dictNulls.lead_email "N/A") = "None" :=
  ⟨Or.inr rfl, (c10_theorem 1 dictNulls).1 (Or.inr rfl), rfl,
    ((c10_theorem 1 dictNulls).2.2.2.2 rfl).1⟩

end TaskReport
